import Mathlib

/-!
Verification of the F1 pit-strategy decision engine (hacktx-25, `src/model/`).

The development shallowly embeds the components of the engine:
where the Python code manipulates JSON-like dictionaries we use association
lists over an inductive `PyVal` universe of Python values; Python floats are
modelled by their exact rational values, and the one place where the exact
result of a double-precision computation matters (the 70/30 sample split in
`train.py`) is modelled by explicit round-to-nearest-even on rationals.
-/

namespace F1Pit

/-! ### Python value model

JSON payloads reaching the service are dictionaries whose values are
numbers, strings, booleans, null, or nested arrays/objects.  A Python float
is carried as the exact rational it denotes. -/

inductive PyVal where
  | vInt : ℤ → PyVal
  | vFloat : ℚ → PyVal
  | vStr : String → PyVal
  | vBool : Bool → PyVal
  | vNone : PyVal
  | vList : List PyVal → PyVal

/-- The smallest integer magnitude on which CPython `float(int)` raises
`OverflowError`: conversion rounds to the nearest double (ties to even),
and the result first exceeds the largest finite double at
`2^1024 - 2^970`; written with shifts so concrete payloads evaluate. -/
def overflowBound : ℤ := ((1 <<< 1024 - 1 <<< 970 : ℕ) : ℤ)

/-- A value on which `float()` raises the uncaught `OverflowError`: an
integer at or beyond the double range. -/
def overflowValue (v : PyVal) : Prop :=
  ∃ n : ℤ, v = PyVal.vInt n ∧ (overflowBound ≤ n ∨ n ≤ -overflowBound)

/-- Exceptions relevant to `validate_input`: `KeyError` from `data[k]`,
`ValueError`/`TypeError` from `float(...)` / `int(...)`, and
`OverflowError` from `float(...)` on an integer beyond the double range —
the one kind the `except (ValueError, TypeError)` handlers do not catch. -/
inductive PyExc where
  | keyError : PyExc
  | valueError : PyExc
  | typeError : PyExc
  | overflowError : PyExc
deriving DecidableEq

/-- A JSON object (Python dict): an association list keyed by strings. -/
def Input : Type := List (String × PyVal)

/-- Dictionary lookup, `data[k]` as an `Option`. -/
def alookup (data : Input) (k : String) : Option PyVal :=
  (List.find? (fun p => p.1 == k) data).map Prod.snd

/-- Dictionary access used after a presence check has already succeeded
(defaults to `None`, an unreachable default). -/
def dget (data : Input) (k : String) : PyVal :=
  (alookup data k).getD PyVal.vNone

/-- Python subscript `data[k]`: raises `KeyError` when absent. -/
def pyGetItemE (data : Input) (k : String) : Except PyExc PyVal :=
  match alookup data k with
  | some v => Except.ok v
  | none => Except.error PyExc.keyError

/-- Value of a decimal digit string (all characters must be digits,
and the string must be nonempty). -/
def parseNatChars (cs : List Char) : Option ℕ :=
  if cs.isEmpty then none
  else if cs.all Char.isDigit then
    some (cs.foldl (fun a c => 10 * a + (c.toNat - 48)) 0)
  else none

/-- Python `int(s)` on a string: optional sign followed by digits
(whitespace and underscores are not modelled). -/
def pyStrToInt (s : String) : Option ℤ :=
  match s.data with
  | [] => none
  | c :: rest =>
    if c = Char.ofNat 45 then (parseNatChars rest).map (fun n => -(n : ℤ))
    else if c = Char.ofNat 43 then (parseNatChars rest).map (fun n => (n : ℤ))
    else (parseNatChars (c :: rest)).map (fun n => (n : ℤ))

/-- Splits a character list at the first dot, if any. -/
def splitDot : List Char → List Char × Option (List Char)
  | [] => ([], none)
  | c :: rest =>
    if c = Char.ofNat 46 then ([], some rest)
    else
      let p := splitDot rest
      (c :: p.1, p.2)

/-- Unsigned decimal literal: `digits`, `digits.digits`, `digits.` or
`.digits` (exponent forms, `inf` and `nan` are not modelled). -/
def parseUnsignedFloat (cs : List Char) : Option ℚ :=
  match splitDot cs with
  | (ip, none) => (parseNatChars ip).map (fun n => (n : ℚ))
  | (ip, some fp) =>
    if ip.isEmpty ∧ fp.isEmpty then none
    else if ip.all Char.isDigit ∧ fp.all Char.isDigit then
      some ((ip.foldl (fun a c => 10 * a + (c.toNat - 48)) 0 : ℕ) +
        ((fp.foldl (fun a c => 10 * a + (c.toNat - 48)) 0 : ℕ) : ℚ) / 10 ^ fp.length)
    else none

/-- Python `float(s)` on a string. -/
def pyStrToFloat (s : String) : Option ℚ :=
  match s.data with
  | [] => none
  | c :: rest =>
    if c = Char.ofNat 45 then (parseUnsignedFloat rest).map Neg.neg
    else if c = Char.ofNat 43 then parseUnsignedFloat rest
    else parseUnsignedFloat (c :: rest)

/-- Truncation toward zero, Python `int()` applied to a float
(`Int.tdiv` truncates toward zero, so -5.5 maps to -5 as in Python). -/
def ratTrunc (q : ℚ) : ℤ := Int.tdiv q.num (q.den : ℤ)

/-- Python `float(v)`: numbers and booleans convert, numeric strings parse
(`ValueError` otherwise), `None` and containers raise `TypeError`, and an
integer whose magnitude reaches `overflowBound` raises `OverflowError`.
The 53-bit rounding of in-range integers is not modelled: no comparison in
this program distinguishes an in-range integer from its rounded double.
`float` of a numeric string never raises `OverflowError` (CPython returns
an infinity instead, which here fails the same range checks the infinity
would). -/
def pyToFloatE : PyVal → Except PyExc ℚ
  | PyVal.vInt n =>
    if overflowBound ≤ n ∨ n ≤ -overflowBound then Except.error PyExc.overflowError
    else Except.ok (n : ℚ)
  | PyVal.vFloat q => Except.ok q
  | PyVal.vBool b => Except.ok (cond b 1 0)
  | PyVal.vStr s =>
    match pyStrToFloat s with
    | some q => Except.ok q
    | none => Except.error PyExc.valueError
  | PyVal.vNone => Except.error PyExc.typeError
  | PyVal.vList _ => Except.error PyExc.typeError

/-- Python `int(v)`: floats truncate toward zero, integer strings parse
(`int("5.5")` raises `ValueError`), `None` and containers raise
`TypeError`.  `int` of an arbitrary-precision integer never overflows, and
on the finite floats of this model `int()` raises nothing further; the
CPython `OverflowError` of `int()` on an infinite float lies outside the
modelled value universe (infinities are not standard JSON and not
representable as a rational). -/
def pyToIntE : PyVal → Except PyExc ℤ
  | PyVal.vInt n => Except.ok n
  | PyVal.vFloat q => Except.ok (ratTrunc q)
  | PyVal.vBool b => Except.ok (cond b 1 0)
  | PyVal.vStr s =>
    match pyStrToInt s with
    | some n => Except.ok n
    | none => Except.error PyExc.valueError
  | PyVal.vNone => Except.error PyExc.typeError
  | PyVal.vList _ => Except.error PyExc.typeError

/-- Conversion `float(v)` with the exception folded to `Option` (used where the call
sits under `try/except (ValueError, TypeError)`).  The fold also maps the
uncaught `OverflowError` to `none`; `validateInputExc` keeps that
distinction, and the two accounts agree on every input whose integers stay
below `overflowBound`. -/
def pyToFloat (v : PyVal) : Option ℚ :=
  match pyToFloatE v with
  | Except.ok q => some q
  | Except.error _ => none

/-- Conversion `int(v)` with the exception folded to `Option`. -/
def pyToInt (v : PyVal) : Option ℤ :=
  match pyToIntE v with
  | Except.ok n => some n
  | Except.error _ => none

/-- Python `v == k` against an integer: ints, floats and bools compare by
numeric value (`True == 1`, `1.0 == 1`), everything else is unequal. -/
def pyEqNum (v : PyVal) (k : ℤ) : Bool :=
  match v with
  | PyVal.vInt n => n == k
  | PyVal.vFloat q => q == (k : ℚ)
  | PyVal.vBool b => (cond b 1 0 : ℤ) == k
  | _ => false

/-- Python `v == s` against a string. -/
def pyEqStr (v : PyVal) (s : String) : Bool :=
  match v with
  | PyVal.vStr t => t == s
  | _ => false

/-! ### Decision oracle (`train.py`, `add_decision_labels`)

The labeling cascade applied to each row; `laps_since_pit` is not consulted
by any rule, so a scenario carries only the five rule-relevant fields. -/

structure Scenario where
  undercut : ℤ
  wear : ℚ
  drop : ℚ
  pos : ℤ
  incident : String
deriving DecidableEq

/-- The rule cascade of `add_decision_labels`, first match wins. -/
def decideLabel (s : Scenario) : String :=
  if s.incident = "Safety Car" ∨ s.incident = "VSC" then "PIT NOW"
  else if 85 < s.wear then "PIT NOW"
  else if 7/2 < s.drop then "PIT NOW"
  else if s.undercut = 1 ∧ 40 < s.wear ∧ s.pos ≤ 8 then "PIT NOW"
  else if 5/2 < s.drop ∧ 65 < s.wear then "PIT NOW"
  else if 2 < s.drop ∧ 75 < s.wear then "PIT NOW"
  else "STAY OUT"

/-! ### Realism checker (`api.py`, `check_input_realism`)

The Python code compares `perf_drop` with `4.5*(tire_wear/100)**1.5 + 1.5`
and `max(0.1, 4.5*(tire_wear/100)**1.5 - 0.5)`.  For `w ≥ 0` we have
`(w/100)**1.5 = Real.sqrt ((w/100)^3)`, so each comparison with the
irrational band value is encoded by the equivalent squared rational
comparison; the bridge to the real-valued band is proved below. -/

inductive RealismWarning where
  | high : RealismWarning
  | low : RealismWarning
deriving DecidableEq

/-- Encodes `d > 4.5*(w/100)^1.5 + 1.5`, i.e.
`d - 3/2 > (9/2) * Real.sqrt (w^3) / 1000`, by squaring. -/
def dropAboveBand (w d : ℚ) : Bool :=
  (3/2 < d) && ((9/2) ^ 2 * w ^ 3 < (d - 3/2) ^ 2 * 1000 ^ 2)

/-- Encodes `d < 4.5*(w/100)^1.5 - 1/2`, i.e.
`d + 1/2 < (9/2) * Real.sqrt (w^3) / 1000`, by squaring. -/
def dropBelowCurve (w d : ℚ) : Bool :=
  (d + 1/2 < 0) || ((d + 1/2) ^ 2 * 1000 ^ 2 < (9/2) ^ 2 * w ^ 3)

/-- Encodes `d < max(0.1, 4.5*(w/100)^1.5 - 0.5)`. -/
def dropBelowBand (w d : ℚ) : Bool :=
  (d < 1/10) || dropBelowCurve w d

/-- The checker `check_input_realism` on the (already floated) tire wear and
performance drop: an `if`/`elif`, so at most one warning is produced, with
the low warning further guarded by `tire_wear > 30`. -/
def checkRealism (w d : ℚ) : List RealismWarning :=
  if dropAboveBand w d then [RealismWarning.high]
  else if dropBelowBand w d ∧ 30 < w then [RealismWarning.low]
  else []

/-- The expected-band upper bound `4.5*(w/100)^1.5 + 1.5` as a real. -/
noncomputable def bandUpper (w : ℚ) : ℝ :=
  4.5 * Real.sqrt (((w : ℝ) / 100) ^ 3) + 1.5

/-- The expected-band lower bound `max(0.1, 4.5*(w/100)^1.5 - 0.5)`. -/
noncomputable def bandLower (w : ℚ) : ℝ :=
  max 0.1 (4.5 * Real.sqrt (((w : ℝ) / 100) ^ 3) - 0.5)

/-! ### Input validator (`api.py`, `validate_input`) -/

/-- The five required fields of the `/predict` payload, in source order. -/
def requiredFields : List String :=
  ["undercut_overcut_opportunity", "tire_wear_percentage",
   "performance_drop_seconds", "track_position", "race_incident"]

/-- The four known incident values, in source order. -/
def validIncidents : List String := ["None", "Yellow Flag", "Safety Car", "VSC"]

/-- Python `", ".join(l)`. -/
def joinComma : List String → String
  | [] => ""
  | [s] => s
  | s :: rest => s ++ ", " ++ joinComma rest

def msgMissing (missing : List String) : String :=
  "Missing required fields: " ++ joinComma missing

def msgUndercut : String := "undercut_overcut_opportunity must be 0 or 1"

def msgTireRange : String := "tire_wear_percentage must be between 0 and 100"

def msgTireNum : String := "tire_wear_percentage must be a number"

def msgPerfNeg : String := "performance_drop_seconds must be non-negative"

def msgPerfNum : String := "performance_drop_seconds must be a number"

def msgTrackRange : String := "track_position must be between 1 and 20"

def msgTrackInt : String := "track_position must be an integer"

def msgIncident : String := "race_incident must be one of: " ++ joinComma validIncidents

/-- The fields of `required_fields` absent from the payload, in order. -/
def missingFields (data : Input) : List String :=
  requiredFields.filter (fun f => (alookup data f).isNone)

/-- The validator `validate_input` from `api.py`: sequential checks, each failing check
returns immediately with its message; each `float(...)` / `int(...)` call
sits in a `try/except (ValueError, TypeError)` whose handler returns the
corresponding "must be a number/an integer" failure. -/
def validate_input (data : Input) : Bool × String :=
  if missingFields data ≠ [] then (false, msgMissing (missingFields data))
  else if ¬(pyEqNum (dget data "undercut_overcut_opportunity") 0 ∨
      pyEqNum (dget data "undercut_overcut_opportunity") 1) then (false, msgUndercut)
  else
    match pyToFloat (dget data "tire_wear_percentage") with
    | none => (false, msgTireNum)
    | some t =>
      if ¬(0 ≤ t ∧ t ≤ 100) then (false, msgTireRange)
      else
        match pyToFloat (dget data "performance_drop_seconds") with
        | none => (false, msgPerfNum)
        | some p =>
          if p < 0 then (false, msgPerfNeg)
          else
            match pyToInt (dget data "track_position") with
            | none => (false, msgTrackInt)
            | some k =>
              if ¬(1 ≤ k ∧ k ≤ 20) then (false, msgTrackRange)
              else if ¬(validIncidents.any
                  (fun s => pyEqStr (dget data "race_incident") s)) then
                (false, msgIncident)
              else (true, "")

/-- Reading `float(data[k])` as it appears inside a `try` block: a `KeyError` from
the subscript would escape the `except (ValueError, TypeError)` handler. -/
def getFloatE (data : Input) (k : String) : Except PyExc ℚ :=
  match pyGetItemE data k with
  | Except.error e => Except.error e
  | Except.ok v => pyToFloatE v

/-- Reading `int(data[k])` inside a `try` block. -/
def getIntE (data : Input) (k : String) : Except PyExc ℤ :=
  match pyGetItemE data k with
  | Except.error e => Except.error e
  | Except.ok v => pyToIntE v

/-- The validator `validate_input` at the level of the Python exception semantics: dictionary
subscripts may raise `KeyError`; each conversion sits under
`try/except (ValueError, TypeError)`, which converts exactly those two
exception kinds into structured failures and re-raises anything else. -/
def validateInputExc (data : Input) : Except PyExc (Bool × String) :=
  if missingFields data ≠ [] then Except.ok (false, msgMissing (missingFields data))
  else
    match pyGetItemE data "undercut_overcut_opportunity" with
    | Except.error e => Except.error e
    | Except.ok u =>
      if ¬(pyEqNum u 0 ∨ pyEqNum u 1) then Except.ok (false, msgUndercut)
      else
        match getFloatE data "tire_wear_percentage" with
        | Except.error e =>
          if e = PyExc.valueError ∨ e = PyExc.typeError then Except.ok (false, msgTireNum)
          else Except.error e
        | Except.ok t =>
          if ¬(0 ≤ t ∧ t ≤ 100) then Except.ok (false, msgTireRange)
          else
            match getFloatE data "performance_drop_seconds" with
            | Except.error e =>
              if e = PyExc.valueError ∨ e = PyExc.typeError then Except.ok (false, msgPerfNum)
              else Except.error e
            | Except.ok p =>
              if p < 0 then Except.ok (false, msgPerfNeg)
              else
                match getIntE data "track_position" with
                | Except.error e =>
                  if e = PyExc.valueError ∨ e = PyExc.typeError then
                    Except.ok (false, msgTrackInt)
                  else Except.error e
                | Except.ok k =>
                  if ¬(1 ≤ k ∧ k ≤ 20) then Except.ok (false, msgTrackRange)
                  else
                    match pyGetItemE data "race_incident" with
                    | Except.error e => Except.error e
                    | Except.ok v =>
                      if ¬(validIncidents.any (fun s => pyEqStr v s)) then
                        Except.ok (false, msgIncident)
                      else Except.ok (true, "")

/-! ### Fitted preprocessor and the `/predict` pipeline

`create_preprocessor` (`train.py`) builds a `ColumnTransformer` with a
a `OneHotEncoder` with `handle_unknown` set to ignore over `race_incident`, a
a `StandardScaler` over four numeric columns, and passthrough remainder.
The one-hot block follows the documented sklearn contract: one indicator per
category observed at fit time, an unseen category encoding to all zeros.
The fitted (mean, scale) pairs of the scaler are irrational in general (scale is
a standard deviation), so a fitted artifact carries them as parameters;
none of the verified properties depend on their values. -/

/-- A cell of a pandas `DataFrame` row as used by this pipeline. -/
inductive Cell where
  | num : ℚ → Cell
  | str : String → Cell
deriving DecidableEq

/-- Row of a single-row `DataFrame`: column name to cell, in column order. -/
def Row : Type := List (String × Cell)

def rlookup (row : Row) (k : String) : Option Cell :=
  (List.find? (fun p => p.1 == k) row).map Prod.snd

/-- The categorical columns of `create_preprocessor`. -/
def categoricalFeatures : List String := ["race_incident"]

/-- The numeric columns of `create_preprocessor`, scaled by the
`StandardScaler`. -/
def numericalFeatures : List String :=
  ["tire_wear_percentage", "performance_drop_seconds", "track_position",
   "laps_since_pit"]

/-- The six feature columns selected for `X` in `train.py` `main`, which the
preprocessor is fitted on. -/
def requiredFeaturesTrain : List String :=
  ["undercut_overcut_opportunity", "tire_wear_percentage",
   "performance_drop_seconds", "track_position", "race_incident",
   "laps_since_pit"]

/-- A fitted `ColumnTransformer` artifact: the incident categories observed
at fit time plus the per-column scaling statistics. -/
structure FittedPreprocessor where
  categories : List String
  numStats : String → ℚ × ℚ

/-- One-hot encoding with `handle_unknown` set to ignore: one indicator column
per fitted category; a cell matching no category yields all zeros. -/
def oneHot (cats : List String) (c : Cell) : List ℚ :=
  cats.map (fun cat => if c = Cell.str cat then 1 else 0)

/-- Scaling transform of one value with fitted (mean, scale). -/
def scaleVal (st : ℚ × ℚ) (x : ℚ) : ℚ := (x - st.1) / st.2

/-- The transform step of the `ColumnTransformer` on a single row: selects the categorical
column and the four numeric columns by name (raising, modelled as `none`,
when a fitted-on column is missing from the row), then appends the
passthrough remainder columns.  Output block order is transformer order
(cat, num) followed by the remainder, as in sklearn. -/
def transform (P : FittedPreprocessor) (row : Row) : Option (List ℚ) :=
  match rlookup row "race_incident" with
  | none => none
  | some inc =>
    match numericalFeatures.mapM (fun f =>
        match rlookup row f with
        | some (Cell.num x) => some (scaleVal (P.numStats f) x)
        | _ => none) with
    | none => none
    | some nums =>
      match (row.filter (fun p =>
          ¬(p.1 ∈ categoricalFeatures) ∧ ¬(p.1 ∈ numericalFeatures))).mapM
          (fun p => match p.2 with | Cell.num x => some x | _ => none) with
      | none => none
      | some rest => some (oneHot P.categories inc ++ nums ++ rest)

/-- The single-row `DataFrame` assembled in `api.py` `predict`: five columns
only, built with `int(...)` / `float(...)` conversions on the validated
payload (`laps_since_pit` is not among them). -/
def apiRow (data : Input) : Option Row :=
  match pyToInt (dget data "undercut_overcut_opportunity"),
      pyToFloat (dget data "tire_wear_percentage"),
      pyToFloat (dget data "performance_drop_seconds"),
      pyToInt (dget data "track_position"),
      dget data "race_incident" with
  | some u, some t, some p, some k, PyVal.vStr inc =>
    some [("undercut_overcut_opportunity", Cell.num u),
      ("tire_wear_percentage", Cell.num t),
      ("performance_drop_seconds", Cell.num p),
      ("track_position", Cell.num k),
      ("race_incident", Cell.str inc)]
  | _, _, _, _, _ => none

/-- Outcome of one `/predict` request: the 400 "No JSON data provided"
branch, a 400 validation failure, a 500 from the surrounding
`except Exception` handler, or a 200 with decision and warnings. -/
inductive ApiResult where
  | noData : ApiResult
  | clientError : String → ApiResult
  | serverError : ApiResult
  | success : String → List RealismWarning → ApiResult
deriving DecidableEq

/-- The `/predict` handler of `api.py`, parameterised by the loaded
artifacts: `P` the fitted preprocessor and `M` the fitted classifier
(`model.predict` composed over the preprocessed vector).  Any exception
inside the handler body (failed conversion, failed transform) is caught by
the blanket `except Exception` and surfaces as a 500 error.  The validate
step uses the exception-folded `validate_input`; the folded model and
CPython agree on every input whose integers stay below `overflowBound`
(see `validateInputExc` for the exact exception-level account), and every
theorem below about `apiPredict` concerns only such inputs. -/
def apiPredict (P : FittedPreprocessor) (M : List ℚ → String) (data : Input) :
    ApiResult :=
  if data.isEmpty then ApiResult.noData
  else
    match validate_input data with
    | (false, msg) => ApiResult.clientError msg
    | (true, _) =>
      match pyToFloat ((alookup data "tire_wear_percentage").getD (PyVal.vInt 0)),
          pyToFloat ((alookup data "performance_drop_seconds").getD (PyVal.vInt 0)) with
      | some tw, some pd =>
        let warnings := checkRealism tw pd
        match apiRow data with
        | none => ApiResult.serverError
        | some row =>
          match transform P row with
          | none => ApiResult.serverError
          | some v => ApiResult.success (M v) warnings
      | _, _ => ApiResult.serverError

/-- Fitting: `OneHotEncoder.fit` collects the sorted distinct categories observed in
the training column; a `StandardScaler` stores a (mean, scale) pair per
numeric column, carried here as a parameter because fitted scales are
standard deviations, irrational in general, and no verified property
depends on their values. -/
def fitPreprocessor (incidents : List String) (stats : String → ℚ × ℚ) :
    FittedPreprocessor :=
  ⟨List.mergeSort incidents.dedup (fun a b => a ≤ b), stats⟩

/-- The six-column single-row `DataFrame` used at training time and by
`main.py` (the Convex client): the five api columns plus `laps_since_pit`. -/
def mainRow (u t p k laps : ℚ) (inc : String) : Row :=
  [("undercut_overcut_opportunity", Cell.num u),
   ("tire_wear_percentage", Cell.num t),
   ("performance_drop_seconds", Cell.num p),
   ("track_position", Cell.num k),
   ("race_incident", Cell.str inc),
   ("laps_since_pit", Cell.num laps)]

/-- Whether the validator checks before the `track_position` check all
pass: required fields present, `undercut_overcut_opportunity` in {0, 1},
tire wear a number within [0, 100], performance drop a nonnegative
number. -/
def earlierChecksPass (data : Input) : Bool :=
  (missingFields data).isEmpty &&
  (pyEqNum (dget data "undercut_overcut_opportunity") 0 ||
    pyEqNum (dget data "undercut_overcut_opportunity") 1) &&
  (match pyToFloat (dget data "tire_wear_percentage") with
   | some t => decide (0 ≤ t ∧ t ≤ 100)
   | none => false) &&
  (match pyToFloat (dget data "performance_drop_seconds") with
   | some p => decide (0 ≤ p)
   | none => false)

/-- A fully valid payload except that `track_position` carries the
non-integral float 5.5 (= 11/2). -/
def inputTrackHalf : Input :=
  [("undercut_overcut_opportunity", PyVal.vInt 0),
   ("tire_wear_percentage", PyVal.vInt 50),
   ("performance_drop_seconds", PyVal.vFloat 1),
   ("track_position", PyVal.vFloat (Rat.divInt 11 2)),
   ("race_incident", PyVal.vStr "None")]

/-- A payload with `performance_drop_seconds` omitted and every other
required field present and valid. -/
def inputMissingPerf : Input :=
  [("undercut_overcut_opportunity", PyVal.vInt 0),
   ("tire_wear_percentage", PyVal.vInt 30),
   ("track_position", PyVal.vInt 8),
   ("race_incident", PyVal.vStr "Safety Car")]

/-- A JSON-representable payload whose tire wear is the 404-digit integer
`2^1340`: `float()` of it raises `OverflowError`, which the
`except (ValueError, TypeError)` handler does not catch. -/
def inputHugeInt : Input :=
  [("undercut_overcut_opportunity", PyVal.vInt 0),
   ("tire_wear_percentage", PyVal.vInt ((1 <<< 1340 : ℕ) : ℤ)),
   ("performance_drop_seconds", PyVal.vFloat (Rat.divInt 1 2)),
   ("track_position", PyVal.vInt 8),
   ("race_incident", PyVal.vStr "None")]

/-- A fully valid payload (the Safety Car example scenario of the spec). -/
def inputSafetyCar : Input :=
  [("undercut_overcut_opportunity", PyVal.vInt 0),
   ("tire_wear_percentage", PyVal.vInt 30),
   ("performance_drop_seconds", PyVal.vFloat (Rat.divInt 1 2)),
   ("track_position", PyVal.vInt 8),
   ("race_incident", PyVal.vStr "Safety Car")]

/-! ### Synthetic generator sample counts
(`train.py`, `generate_training_data_synthetic`)

`normal_samples = int(num_samples * 0.7)` is evaluated in double precision:
the literal `0.7` denotes the nearest double to 7/10 and the product is
rounded to the nearest double (ties to even) before truncation.  Both
roundings are modelled exactly on rationals. -/

/-- Bit length with explicit fuel (structural recursion so that concrete
values reduce); 128 bits of fuel covers every quantity in this pipeline. -/
def bitLenAux : ℕ → ℕ → ℕ
  | 0, _ => 0
  | fuel + 1, n => if n = 0 then 0 else bitLenAux fuel (n / 2) + 1

/-- Number of binary digits of `n` (0 for 0). -/
def bitLen (n : ℕ) : ℕ := bitLenAux 128 n

/-- Nearest integer to `num/den` (`den > 0`), ties to even. -/
def roundHalfEvenNat (num den : ℕ) : ℕ :=
  if 2 * (num % den) < den then num / den
  else if den < 2 * (num % den) then num / den + 1
  else if num / den % 2 = 0 then num / den else num / den + 1

/-- Whether `2^k ≤ a/b` for positive naturals `a, b`. -/
def pow2LeRat (k : ℤ) (a b : ℕ) : Bool :=
  if 0 ≤ k then b * 2 ^ k.toNat ≤ a else b ≤ a * 2 ^ (-k).toNat

/-- A positive binary64 value as an exact dyadic rational: a mantissa and a
binary exponent, value `mant * 2^exp`. -/
def Dyadic : Type := ℕ × ℤ

/-- Round the positive rational `a/b` to the nearest binary64 value
(53-bit significand, round half to even): the exponent `e` with
`2^e ≤ a/b < 2^(e+1)` is found from the bit lengths of `a` and `b`
(corrected by one where needed), and the 53-bit significand is obtained by
scaling to `[2^52, 2^53]` and rounding; the quantities in play are well
inside the normal range, so overflow and subnormals do not arise. -/
def rnPosRat (a b : ℕ) : Dyadic :=
  let k : ℤ := (bitLen a : ℤ) - (bitLen b : ℤ)
  let e : ℤ := if pow2LeRat k a b then k else k - 1
  let s : ℤ := 52 - e
  let m : ℕ :=
    if 0 ≤ s then roundHalfEvenNat (a * 2 ^ s.toNat) b
    else roundHalfEvenNat a (b * 2 ^ (-s).toNat)
  (m, e - 52)

/-- The double denoted by the Python literal `0.7`, as a dyadic:
`6305039478318694 * 2^(-53) = 3152519739159347 / 2^52`. -/
def double07 : Dyadic := rnPosRat 7 10

/-- The double product `n * d` for a natural `n` and a positive double `d`:
the exact product `n * mant * 2^exp` rounded back to 53 bits. -/
def mulDoubleNat (d : Dyadic) (n : ℕ) : Dyadic :=
  if n * d.1 = 0 then (0, 0)
  else if 0 ≤ d.2 then rnPosRat (n * d.1 * 2 ^ d.2.toNat) 1
  else rnPosRat (n * d.1) (2 ^ (-d.2).toNat)

/-- Python `int()` of a nonnegative double: truncation toward zero. -/
def dyadicTruncNat (d : Dyadic) : ℕ :=
  if 0 ≤ d.2 then d.1 * 2 ^ d.2.toNat else d.1 / 2 ^ (-d.2).toNat

/-- The split `normal_samples = int(num_samples * 0.7)`, evaluated in double
precision exactly as CPython does. -/
def normalSamples (n : ℕ) : ℕ := dyadicTruncNat (mulDoubleNat double07 n)

/-- The count `strategic_samples = num_samples - normal_samples`. -/
def strategicSamples (n : ℕ) : ℕ := n - normalSamples n

/-- The share `strategic_samples_per_type = strategic_samples // 5`: each of the five
critical strata gets this many rows. -/
def strategicPerType (n : ℕ) : ℕ := strategicSamples n / 5

/-- Total number of rows of the synthetic dataset: the concatenation of the
normal block and the five equally sized stratum blocks. -/
def syntheticRowCount (n : ℕ) : ℕ := normalSamples n + 5 * strategicPerType n

/-! ### The five critical strata

Feature ranges as generated (`np.random.randint(a, b)` draws integers in
`[a, b-1]`; `np.random.uniform(a, b)` draws from `[a, b)`); every generated
row is then labeled by the oracle.  A scenario is in the support of a stratum iff
its fields lie in the generated ranges (integer-valued where `randint` is
used). -/

/-- Stratum 2a, Safety Car. -/
def inSafetyCarStratum (s : Scenario) : Prop :=
  (s.undercut = 0 ∨ s.undercut = 1) ∧
  s.wear.den = 1 ∧ 20 ≤ s.wear ∧ s.wear ≤ 89 ∧
  1/2 ≤ s.drop ∧ s.drop < 3 ∧
  1 ≤ s.pos ∧ s.pos ≤ 20 ∧
  s.incident = "Safety Car"

/-- Stratum 2b, VSC. -/
def inVSCStratum (s : Scenario) : Prop :=
  (s.undercut = 0 ∨ s.undercut = 1) ∧
  s.wear.den = 1 ∧ 25 ≤ s.wear ∧ s.wear ≤ 84 ∧
  1/2 ≤ s.drop ∧ s.drop < 5/2 ∧
  1 ≤ s.pos ∧ s.pos ≤ 20 ∧
  s.incident = "VSC"

/-- Stratum 2c, critical tire wear. -/
def inCriticalWearStratum (s : Scenario) : Prop :=
  (s.undercut = 0 ∨ s.undercut = 1) ∧
  s.wear.den = 1 ∧ 85 ≤ s.wear ∧ s.wear ≤ 97 ∧
  5/2 ≤ s.drop ∧ s.drop < 9/2 ∧
  1 ≤ s.pos ∧ s.pos ≤ 20 ∧
  s.incident = "None"

/-- Stratum 2d, fresh tires. -/
def inFreshTireStratum (s : Scenario) : Prop :=
  (s.undercut = 0 ∨ s.undercut = 1) ∧
  s.wear.den = 1 ∧ 5 ≤ s.wear ∧ s.wear ≤ 24 ∧
  1/10 ≤ s.drop ∧ s.drop < 4/5 ∧
  1 ≤ s.pos ∧ s.pos ≤ 20 ∧
  s.incident = "None"

/-- Stratum 2e, high degradation. -/
def inHighDegStratum (s : Scenario) : Prop :=
  (s.undercut = 0 ∨ s.undercut = 1) ∧
  s.wear.den = 1 ∧ 75 ≤ s.wear ∧ s.wear ≤ 97 ∧
  5/2 ≤ s.drop ∧ s.drop < 9/2 ∧
  1 ≤ s.pos ∧ s.pos ≤ 20 ∧
  s.incident = "None"

/-- The construction of a stratum produces both decision classes iff its support
contains a scenario labeled each way. -/
def stratumHasBothClasses (Stratum : Scenario → Prop) : Prop :=
  (∃ s, Stratum s ∧ decideLabel s = "PIT NOW") ∧
  (∃ s, Stratum s ∧ decideLabel s = "STAY OUT")

/-- The class-balance contract as claimed: every one of the five
stratum-derived subsets contains scenarios of both decision classes, by
construction of the feature ranges and the oracle labeling. -/
def allStrataHaveBothClasses : Prop :=
  stratumHasBothClasses inSafetyCarStratum ∧
  stratumHasBothClasses inVSCStratum ∧
  stratumHasBothClasses inCriticalWearStratum ∧
  stratumHasBothClasses inFreshTireStratum ∧
  stratumHasBothClasses inHighDegStratum

/-! ### C2: the decision oracle cascade -/

/-- C2: for every scenario the labeler realises exactly the ordered
first-match-wins cascade: `decideLabel` returns "PIT NOW" precisely when one
of the six pit rules holds (incident is Safety Car or VSC; wear > 85;
drop > 3.5; undercut with wear > 40 and position ≤ 8; drop > 2.5 with
wear > 65; drop > 2.0 with wear > 75) and "STAY OUT" otherwise; in
particular a Safety Car or VSC incident yields "PIT NOW" regardless of all
other fields. -/
theorem decideLabel_cascade_characterization (s : Scenario) :
    (decideLabel s = "PIT NOW" ↔
      ((s.incident = "Safety Car" ∨ s.incident = "VSC") ∨ 85 < s.wear ∨
        7/2 < s.drop ∨ (s.undercut = 1 ∧ 40 < s.wear ∧ s.pos ≤ 8) ∨
        (5/2 < s.drop ∧ 65 < s.wear) ∨ (2 < s.drop ∧ 75 < s.wear))) ∧
    (decideLabel s = "STAY OUT" ↔
      ¬((s.incident = "Safety Car" ∨ s.incident = "VSC") ∨ 85 < s.wear ∨
        7/2 < s.drop ∨ (s.undercut = 1 ∧ 40 < s.wear ∧ s.pos ≤ 8) ∨
        (5/2 < s.drop ∧ 65 < s.wear) ∨ (2 < s.drop ∧ 75 < s.wear))) ∧
    ((s.incident = "Safety Car" ∨ s.incident = "VSC") →
      decideLabel s = "PIT NOW") := by
  unfold decideLabel
  split_ifs with h1 h2 h3 h4 h5 h6 <;>
    refine ⟨?_, ?_, ?_⟩ <;> simp_all

/-! ### C3: class composition of the five strata -/

/-- C3 counterexample: the claimed contract fails: not every stratum can
contain both decision classes.  Every scenario of the Safety Car stratum has
`race_incident = "Safety Car"`, so the first oracle rule labels all of
them "PIT NOW" and the stratum can never contain a "STAY OUT" scenario. -/
theorem not_all_strata_have_both_classes : ¬ allStrataHaveBothClasses := by
  intro h
  obtain ⟨⟨_, s, hs, hstay⟩, _⟩ := h
  have hinc : s.incident = "Safety Car" := hs.2.2.2.2.2.2.2.2
  have hpit : decideLabel s = "PIT NOW" := by
    unfold decideLabel
    rw [if_pos (Or.inl hinc)]
  rw [hpit] at hstay
  exact absurd hstay (by decide)

/-- C3 amended: the class composition of the strata is deterministic where the
claim said mixed: the Safety Car, VSC and critical-wear strata consist
entirely of "PIT NOW" scenarios, the fresh-tire stratum entirely of
"STAY OUT" scenarios, and only the feature
ranges of the high-degradation stratum support both decision classes. -/
theorem strata_class_composition :
    (∀ s, inSafetyCarStratum s → decideLabel s = "PIT NOW") ∧
    (∀ s, inVSCStratum s → decideLabel s = "PIT NOW") ∧
    (∀ s, inCriticalWearStratum s → decideLabel s = "PIT NOW") ∧
    (∀ s, inFreshTireStratum s → decideLabel s = "STAY OUT") ∧
    stratumHasBothClasses inHighDegStratum := by
  refine ⟨?_, ?_, ?_, ?_, ?_, ?_⟩
  · intro s hs
    unfold decideLabel
    rw [if_pos (Or.inl hs.2.2.2.2.2.2.2.2)]
  · intro s hs
    unfold decideLabel
    rw [if_pos (Or.inr hs.2.2.2.2.2.2.2.2)]
  · intro s hs
    obtain ⟨hu, hden, hw1, hw2, hd1, hd2, hp1, hp2, hinc⟩ := hs
    unfold decideLabel
    split_ifs with h1 h2 h3 h4 h5 h6 <;> try rfl
    exfalso
    push_neg at h6
    have := h6 (by linarith)
    linarith
  · intro s hs
    obtain ⟨hu, hden, hw1, hw2, hd1, hd2, hp1, hp2, hinc⟩ := hs
    unfold decideLabel
    split_ifs with h1 h2 h3 h4 h5 h6 <;> try rfl
    · rw [hinc] at h1
      rcases h1 with h1 | h1 <;> exact absurd h1 (by decide)
    · exact absurd h2 (by linarith)
    · exact absurd h3 (by linarith)
    · exact absurd h4.2.1 (by linarith)
    · exact absurd h5.2 (by linarith)
    · exact absurd h6.2 (by linarith)
  · refine ⟨⟨0, 90, 3, 10, "None"⟩,
      ⟨Or.inl rfl, rfl, by norm_num, by norm_num, by norm_num, by norm_num,
        by norm_num, by norm_num, rfl⟩, ?_⟩
    unfold decideLabel
    rw [if_neg (by simp), if_pos (by norm_num)]
  · refine ⟨⟨0, 75, 5/2, 10, "None"⟩,
      ⟨Or.inl rfl, rfl, by norm_num, by norm_num, by norm_num, by norm_num,
        by norm_num, by norm_num, rfl⟩, ?_⟩
    unfold decideLabel
    rw [if_neg (by simp), if_neg (by norm_num), if_neg (by norm_num),
      if_neg (by simp), if_neg (by norm_num), if_neg (by norm_num)]

/-- Witness for the amended C3 statement at a concrete Safety Car scenario. -/
theorem strata_class_composition_witness :
    inSafetyCarStratum ⟨0, 30, 1/2, 8, "Safety Car"⟩ ∧
    decideLabel ⟨0, 30, 1/2, 8, "Safety Car"⟩ = "PIT NOW" :=
  ⟨⟨Or.inl rfl, rfl, by norm_num, by norm_num, by norm_num, by norm_num,
      by norm_num, by norm_num, rfl⟩,
    strata_class_composition.1 ⟨0, 30, 1/2, 8, "Safety Car"⟩
      ⟨Or.inl rfl, rfl, by norm_num, by norm_num, by norm_num, by norm_num,
        by norm_num, by norm_num, rfl⟩⟩

/-! ### C5 and C10: the realism band -/

/-- For `0 ≤ a`, comparing with `a` from above is squaring-compatible. -/
theorem lt_iff_sq_lt_of_nonneg (a x : ℝ) (ha : 0 ≤ a) :
    a < x ↔ 0 < x ∧ a ^ 2 < x ^ 2 := by
  constructor
  · intro h
    exact ⟨lt_of_le_of_lt ha h, by nlinarith⟩
  · rintro ⟨hx, h2⟩
    nlinarith

/-- For `0 ≤ a`, comparing with `a` from below is squaring-compatible. -/
theorem lt_iff_lt_sq_of_nonneg (a x : ℝ) (ha : 0 ≤ a) :
    x < a ↔ x < 0 ∨ x ^ 2 < a ^ 2 := by
  constructor
  · intro h
    rcases lt_or_le x 0 with hx | hx
    · exact Or.inl hx
    · exact Or.inr (by nlinarith)
  · rintro (hx | h2)
    · exact lt_of_lt_of_le hx ha
    · nlinarith [sq_nonneg x, sq_nonneg a]

/-- The square of the curve term of the band. -/
theorem band_curve_sq (w : ℚ) (hw : 0 ≤ w) :
    (4.5 * Real.sqrt (((w : ℝ) / 100) ^ 3)) ^ 2 = (9/2) ^ 2 * (w : ℝ) ^ 3 / 1000 ^ 2 := by
  have ht : (0 : ℝ) ≤ ((w : ℝ) / 100) ^ 3 := by positivity
  rw [mul_pow, Real.sq_sqrt ht, div_pow]
  norm_num
  ring

/-- The squared-comparison encoding of `d > 4.5*(w/100)^1.5 + 1.5` agrees
with the real-valued band upper bound. -/
theorem dropAboveBand_iff (w d : ℚ) (hw : 0 ≤ w) :
    dropAboveBand w d = true ↔ bandUpper w < (d : ℝ) := by
  have ha : (0 : ℝ) ≤ 4.5 * Real.sqrt (((w : ℝ) / 100) ^ 3) := by positivity
  have hsq := band_curve_sq w hw
  have hstep : bandUpper w < (d : ℝ) ↔
      4.5 * Real.sqrt (((w : ℝ) / 100) ^ 3) < (d : ℝ) - 3/2 := by
    rw [bandUpper]
    constructor <;> intro h <;> linarith
  rw [hstep, lt_iff_sq_lt_of_nonneg _ _ ha, hsq]
  simp only [dropAboveBand, Bool.and_eq_true, decide_eq_true_eq]
  constructor
  · rintro ⟨h1, h2⟩
    rify at h1 h2
    refine ⟨by linarith, ?_⟩
    rw [div_lt_iff₀ (by norm_num : (0:ℝ) < 1000 ^ 2)]
    linarith
  · rintro ⟨h1, h2⟩
    rw [div_lt_iff₀ (by norm_num : (0:ℝ) < 1000 ^ 2)] at h2
    constructor
    · rify
      linarith
    · rify
      linarith

/-- The squared-comparison encoding of
`d < max(0.1, 4.5*(w/100)^1.5 - 0.5)` agrees with the real-valued band
lower bound. -/
theorem dropBelowBand_iff (w d : ℚ) (hw : 0 ≤ w) :
    dropBelowBand w d = true ↔ (d : ℝ) < bandLower w := by
  have ha : (0 : ℝ) ≤ 4.5 * Real.sqrt (((w : ℝ) / 100) ^ 3) := by positivity
  have hsq := band_curve_sq w hw
  have hstep : ((d : ℝ) < 4.5 * Real.sqrt (((w : ℝ) / 100) ^ 3) - 0.5 ↔
      (d : ℝ) + 1/2 < 4.5 * Real.sqrt (((w : ℝ) / 100) ^ 3)) := by
    constructor <;> intro h <;> linarith
  rw [bandLower, lt_max_iff, hstep, lt_iff_lt_sq_of_nonneg _ _ ha, hsq]
  simp only [dropBelowBand, dropBelowCurve, Bool.or_eq_true, decide_eq_true_eq]
  constructor
  · rintro (h1 | h2 | h3)
    · refine Or.inl ?_
      rify at h1
      linarith
    · refine Or.inr (Or.inl ?_)
      rify at h2
      linarith
    · refine Or.inr (Or.inr ?_)
      rw [lt_div_iff₀ (by norm_num : (0:ℝ) < 1000 ^ 2)]
      rify at h3
      linarith
  · rintro (h1 | h2 | h3)
    · refine Or.inl ?_
      rify
      linarith
    · refine Or.inr (Or.inl ?_)
      rify
      linarith
    · refine Or.inr (Or.inr ?_)
      rw [lt_div_iff₀ (by norm_num : (0:ℝ) < 1000 ^ 2)] at h3
      rify
      linarith

/-- The lower band bound lies strictly below the upper band bound, for every
tire wear value. -/
theorem bandLower_lt_bandUpper (w : ℚ) : bandLower w < bandUpper w := by
  have ha : (0 : ℝ) ≤ Real.sqrt (((w : ℝ) / 100) ^ 3) := Real.sqrt_nonneg _
  rw [bandLower, bandUpper]
  apply max_lt <;> [linarith; linarith]

/-- A "too high" warning appears exactly when the squared upper-band
comparison holds. -/
theorem high_mem_checkRealism (w d : ℚ) :
    RealismWarning.high ∈ checkRealism w d ↔ dropAboveBand w d = true := by
  unfold checkRealism
  split_ifs <;> simp_all

/-- A "too low" warning appears exactly when the upper check failed, the
squared lower-band comparison holds and wear exceeds 30. -/
theorem low_mem_checkRealism (w d : ℚ) :
    RealismWarning.low ∈ checkRealism w d ↔
      (dropAboveBand w d = false ∧ dropBelowBand w d = true ∧ 30 < w) := by
  unfold checkRealism
  split_ifs with h1 h2 <;> simp_all

/-- C5: for tire wear `w ≥ 0` the realism checker emits the "too high"
warning iff the performance drop lies strictly above
`4.5*(w/100)^1.5 + 1.5`, and the "too low" warning iff it lies strictly
below `max(0.1, 4.5*(w/100)^1.5 - 0.5)` and `w > 30`; a drop exactly equal
to either boundary produces no warning. -/
theorem checkRealism_band_characterization (w d : ℚ) (hw : 0 ≤ w) :
    (RealismWarning.high ∈ checkRealism w d ↔ bandUpper w < (d : ℝ)) ∧
    (RealismWarning.low ∈ checkRealism w d ↔ ((d : ℝ) < bandLower w ∧ 30 < w)) ∧
    ((d : ℝ) = bandUpper w → checkRealism w d = []) ∧
    ((d : ℝ) = bandLower w → checkRealism w d = []) := by
  have hub := dropAboveBand_iff w d hw
  have hlb := dropBelowBand_iff w d hw
  have hlt := bandLower_lt_bandUpper w
  refine ⟨?_, ?_, ?_, ?_⟩
  · rw [high_mem_checkRealism, hub]
  · rw [low_mem_checkRealism]
    constructor
    · rintro ⟨_, hb, hw30⟩
      exact ⟨hlb.mp hb, hw30⟩
    · rintro ⟨hd, hw30⟩
      refine ⟨?_, hlb.mpr hd, hw30⟩
      cases hab : dropAboveBand w d
      · rfl
      · exact absurd (hub.mp hab) (by linarith)
  · intro he
    unfold checkRealism
    rw [if_neg, if_neg]
    · rintro ⟨hb, _⟩
      have := hlb.mp hb
      linarith [he ▸ this]
    · intro hb
      have := hub.mp hb
      linarith [he ▸ this]
  · intro he
    unfold checkRealism
    rw [if_neg, if_neg]
    · rintro ⟨hb, _⟩
      have := hlb.mp hb
      linarith [he ▸ this]
    · intro hb
      have := hub.mp hb
      linarith [he ▸ this]

/-- Witness for C5 at wear 50 and drop 1. -/
theorem checkRealism_band_characterization_witness :
    RealismWarning.high ∈ checkRealism 50 1 ↔ bandUpper 50 < ((1 : ℚ) : ℝ) :=
  (checkRealism_band_characterization 50 1 (by norm_num)).1

/-- C10: the realism checker returns at most one warning: the list has
length 0 or 1, "too high" and "too low" never occur together, and indeed
the upper band bound strictly exceeds the lower band bound for every wear
value. -/
theorem checkRealism_at_most_one_warning (w d : ℚ) :
    (checkRealism w d).length ≤ 1 ∧
    ¬(RealismWarning.high ∈ checkRealism w d ∧
      RealismWarning.low ∈ checkRealism w d) ∧
    bandLower w < bandUpper w := by
  refine ⟨?_, ?_, bandLower_lt_bandUpper w⟩
  · unfold checkRealism
    split_ifs <;> simp
  · unfold checkRealism
    split_ifs <;> simp

/-! ### C4: synthetic dataset size -/

/-- C4 counterexample: for `num_samples = 11` the generator produces 7 rows
(`int(11*0.7) = 7` normal rows, `strategic_samples = 4`,
`4 // 5 = 0` rows per critical stratum), not 11. -/
theorem syntheticRowCount_eleven : syntheticRowCount 11 = 7 ∧ syntheticRowCount 11 ≠ 11 := by
  constructor <;> decide

/-- C4 amended: the generator produces
`normal + 5*((N - normal) / 5)` rows where `normal = int(N * 0.7)` — that
is, `N` minus the remainder `(N - normal) % 5`, the rows lost to integer
division when distributing the strategic share over the five strata; the
total equals the requested `N` exactly when 5 divides `N - normal`. -/
theorem syntheticRowCount_eq_iff (n : ℕ) (h : normalSamples n ≤ n) :
    (syntheticRowCount n = n ↔ 5 ∣ (n - normalSamples n)) ∧
    syntheticRowCount n = n - (n - normalSamples n) % 5 := by
  unfold syntheticRowCount strategicPerType strategicSamples
  omega

/-- Witness for the amended C4 statement at the actual training
pipeline sample count 3000 (`normal = 2100`, strategic share 900 divisible by 5). -/
theorem syntheticRowCount_eq_iff_witness :
    normalSamples 3000 ≤ 3000 ∧
    (syntheticRowCount 3000 = 3000 ↔ 5 ∣ (3000 - normalSamples 3000)) :=
  ⟨by decide, (syntheticRowCount_eq_iff 3000 (by decide)).1⟩

/-! ### C6, C7, C9: the input validator -/

/-- A member of a joined list appears verbatim in the joined string. -/
theorem mem_infix_joinComma (s : String) (l : List String) (h : s ∈ l) :
    s.data <:+: (joinComma l).data := by
  induction l with
  | nil => cases h
  | cons a rest ih =>
    cases rest with
    | nil =>
      rcases List.mem_singleton.mp h with rfl
      exact List.infix_rfl
    | cons b r =>
      rcases List.mem_cons.mp h with rfl | hmem
      · show s.data <:+: ((s ++ ", ") ++ joinComma (b :: r)).data
        rw [String.data_append, String.data_append, List.append_assoc]
        exact (List.prefix_append _ _).isInfix
      · have hi := ih hmem
        show s.data <:+: ((a ++ ", ") ++ joinComma (b :: r)).data
        rw [String.data_append]
        exact hi.trans (List.suffix_append _ _).isInfix

/-- When no required field is missing, looking a required field up
succeeds. -/
theorem alookup_eq_of_required (data : Input) (hm : missingFields data = [])
    (f : String) (hf : f ∈ requiredFields) :
    alookup data f = some (dget data f) := by
  have hp := List.filter_eq_nil_iff.mp hm f hf
  cases halk : alookup data f with
  | none =>
    rw [halk] at hp
    simp at hp
  | some v =>
    unfold dget
    rw [halk]
    rfl

/-- When no required field is missing, subscripting a required field does
not raise. -/
theorem pyGetItemE_eq_of_required (data : Input) (hm : missingFields data = [])
    (f : String) (hf : f ∈ requiredFields) :
    pyGetItemE data f = Except.ok (dget data f) := by
  unfold pyGetItemE
  rw [alookup_eq_of_required data hm f hf]

/-- Conversion `float(v)` raises `ValueError` or `TypeError` on malformed
types, and `OverflowError` exactly on an integer at or beyond the double
bound. -/
theorem pyToFloatE_error_cases (v : PyVal) (e : PyExc)
    (h : pyToFloatE v = Except.error e) :
    (e = PyExc.valueError ∨ e = PyExc.typeError) ∨
    (e = PyExc.overflowError ∧ overflowValue v) := by
  cases v with
  | vInt n =>
    simp only [pyToFloatE] at h
    by_cases hb : overflowBound ≤ n ∨ n ≤ -overflowBound
    · rw [if_pos hb] at h
      cases h
      exact Or.inr ⟨rfl, n, rfl, hb⟩
    · rw [if_neg hb] at h
      exact absurd h (by simp)
  | vFloat q => exact absurd h (by simp [pyToFloatE])
  | vBool b => exact absurd h (by simp [pyToFloatE])
  | vStr s =>
    simp only [pyToFloatE] at h
    rcases hps : pyStrToFloat s with _ | q <;> rw [hps] at h
    · exact Or.inl (Or.inl (by injection h with h; exact h.symm))
    · exact absurd h (by simp)
  | vNone =>
    simp only [pyToFloatE] at h
    exact Or.inl (Or.inr (by injection h with h; exact h.symm))
  | vList l =>
    simp only [pyToFloatE] at h
    exact Or.inl (Or.inr (by injection h with h; exact h.symm))

/-- Conversion `int(v)` only ever raises `ValueError` or `TypeError` (on
the finite floats of this model; see `pyToIntE`). -/
theorem pyToIntE_error_kind (v : PyVal) (e : PyExc)
    (h : pyToIntE v = Except.error e) :
    e = PyExc.valueError ∨ e = PyExc.typeError := by
  cases v <;> simp only [pyToIntE] at h
  · exact absurd h (by simp)
  · exact absurd h (by simp)
  · rcases hps : pyStrToInt _ with _ | q <;> rw [hps] at h
    · exact Or.inl (by injection h with h; exact h.symm)
    · exact absurd h (by simp)
  · exact absurd h (by simp)
  · exact Or.inr (by injection h with h; exact h.symm)
  · exact Or.inr (by injection h with h; exact h.symm)

/-- C9 counterexample: the claim says the validator never propagates an
exception for any input dictionary.  On a JSON-representable payload whose
tire wear is a 404-digit integer, `float()` raises `OverflowError`, which
`except (ValueError, TypeError)` does not catch: the validator propagates
the exception to its caller instead of returning a structured result. -/
theorem validateInputExc_huge_int_raises :
    validateInputExc inputHugeInt = Except.error PyExc.overflowError := rfl

/-- C9 amended: for every input dictionary the validator either returns the
structured (is_valid, message) pair or propagates an uncaught
`OverflowError`, the latter only when `tire_wear_percentage` or
`performance_drop_seconds` carries an integer at or beyond the double
range.  In particular malformed types (strings, `None`, nested objects,
booleans) never escape: their conversion failures are `ValueError` or
`TypeError`, which the `try/except` handlers catch, and every dictionary
subscript is guarded by the presence check.  (CPython has one further
uncaught path outside the modelled value universe: `int()` on an infinite
`track_position` float; JSON infinities are not representable here.) -/
theorem validateInputExc_ok_or_overflow (data : Input) :
    validateInputExc data = Except.ok (validate_input data) ∨
    (validateInputExc data = Except.error PyExc.overflowError ∧
      (overflowValue (dget data "tire_wear_percentage") ∨
        overflowValue (dget data "performance_drop_seconds"))) := by
  unfold validateInputExc validate_input
  by_cases hne : missingFields data ≠ []
  · left
    rw [if_pos hne, if_pos hne]
  · have hm : missingFields data = [] := not_ne_iff.mp hne
    rw [if_neg hne, if_neg hne, pyGetItemE_eq_of_required data hm _ (by decide)]
    dsimp only
    by_cases hu : ¬(pyEqNum (dget data "undercut_overcut_opportunity") 0 = true ∨
        pyEqNum (dget data "undercut_overcut_opportunity") 1 = true)
    · left
      rw [if_pos hu, if_pos hu]
    · rw [if_neg hu, if_neg hu]
      have hgf : getFloatE data "tire_wear_percentage" =
          pyToFloatE (dget data "tire_wear_percentage") := by
        unfold getFloatE
        rw [pyGetItemE_eq_of_required data hm _ (by decide)]
      cases hft : pyToFloatE (dget data "tire_wear_percentage") with
      | error e =>
        rcases pyToFloatE_error_cases _ _ hft with hk | ⟨he, hov⟩
        · left
          rw [hgf, hft,
            show pyToFloat (dget data "tire_wear_percentage") = none from by
              unfold pyToFloat; rw [hft]]
          dsimp only
          rw [if_pos hk]
        · subst he
          rw [hgf, hft]
          dsimp only
          rw [if_neg (by decide)]
          exact Or.inr ⟨rfl, Or.inl hov⟩
      | ok t =>
        rw [hgf, hft,
          show pyToFloat (dget data "tire_wear_percentage") = some t from by
            unfold pyToFloat; rw [hft]]
        dsimp only
        by_cases htr : ¬(0 ≤ t ∧ t ≤ 100)
        · left
          rw [if_pos htr, if_pos htr]
        · rw [if_neg htr, if_neg htr]
          have hgp : getFloatE data "performance_drop_seconds" =
              pyToFloatE (dget data "performance_drop_seconds") := by
            unfold getFloatE
            rw [pyGetItemE_eq_of_required data hm _ (by decide)]
          cases hfp : pyToFloatE (dget data "performance_drop_seconds") with
          | error e =>
            rcases pyToFloatE_error_cases _ _ hfp with hk | ⟨he, hov⟩
            · left
              rw [hgp, hfp,
                show pyToFloat (dget data "performance_drop_seconds") = none from by
                  unfold pyToFloat; rw [hfp]]
              dsimp only
              rw [if_pos hk]
            · subst he
              rw [hgp, hfp]
              dsimp only
              rw [if_neg (by decide)]
              exact Or.inr ⟨rfl, Or.inr hov⟩
          | ok p =>
            left
            rw [hgp, hfp,
              show pyToFloat (dget data "performance_drop_seconds") = some p from by
                unfold pyToFloat; rw [hfp]]
            dsimp only
            by_cases hpr : p < 0
            · rw [if_pos hpr, if_pos hpr]
            · rw [if_neg hpr, if_neg hpr]
              have hgk : getIntE data "track_position" =
                  pyToIntE (dget data "track_position") := by
                unfold getIntE
                rw [pyGetItemE_eq_of_required data hm _ (by decide)]
              cases hfk : pyToIntE (dget data "track_position") with
              | error e =>
                have hkind := pyToIntE_error_kind _ _ hfk
                rw [hgk, hfk,
                  show pyToInt (dget data "track_position") = none from by
                    unfold pyToInt; rw [hfk]]
                dsimp only
                rw [if_pos hkind]
              | ok k =>
                rw [hgk, hfk,
                  show pyToInt (dget data "track_position") = some k from by
                    unfold pyToInt; rw [hfk]]
                dsimp only
                by_cases hkr : ¬(1 ≤ k ∧ k ≤ 20)
                · rw [if_pos hkr, if_pos hkr]
                · rw [if_neg hkr, if_neg hkr,
                    pyGetItemE_eq_of_required data hm _ (by decide)]
                  dsimp only
                  by_cases hic : ¬(validIncidents.any
                      fun s => pyEqStr (dget data "race_incident") s) = true
                  · rw [if_pos hic, if_pos hic]
                  · rw [if_neg hic, if_neg hic]

/-- C6: omitting any one of the five required fields makes the validator
fail with the missing-fields message, the name of the omitted field appears
verbatim in that message, and the `/predict` handler answers with a client
error before the preprocessor or the model can be touched. -/
theorem missing_field_names_field (data : Input) (f : String)
    (hf : f ∈ requiredFields) (hmiss : alookup data f = none) :
    validate_input data = (false, msgMissing (missingFields data)) ∧
    f.data <:+: (msgMissing (missingFields data)).data ∧
    ∀ (P : FittedPreprocessor) (M : List ℚ → String),
      apiPredict P M data = ApiResult.noData ∨
      apiPredict P M data = ApiResult.clientError (msgMissing (missingFields data)) := by
  have hfm : f ∈ missingFields data := by
    unfold missingFields
    exact List.mem_filter.mpr ⟨hf, by simp [hmiss]⟩
  have hne : missingFields data ≠ [] := List.ne_nil_of_mem hfm
  have hval : validate_input data = (false, msgMissing (missingFields data)) := by
    unfold validate_input
    rw [if_pos hne]
  refine ⟨hval, ?_, ?_⟩
  · unfold msgMissing
    rw [String.data_append]
    exact (mem_infix_joinComma f _ hfm).trans (List.suffix_append _ _).isInfix
  · intro P M
    by_cases hd : data.isEmpty
    · left
      unfold apiPredict
      rw [if_pos hd]
    · right
      unfold apiPredict
      rw [if_neg hd, hval]

/-- Witness for C6: a request omitting `performance_drop_seconds`. -/
theorem missing_field_names_field_witness :
    validate_input inputMissingPerf =
      (false, msgMissing (missingFields inputMissingPerf)) ∧
    ("performance_drop_seconds" : String).data <:+:
      (msgMissing (missingFields inputMissingPerf)).data ∧
    ∀ (P : FittedPreprocessor) (M : List ℚ → String),
      apiPredict P M inputMissingPerf = ApiResult.noData ∨
      apiPredict P M inputMissingPerf =
        ApiResult.clientError (msgMissing (missingFields inputMissingPerf)) :=
  missing_field_names_field inputMissingPerf "performance_drop_seconds"
    (by decide) rfl

/-- C7 counterexample: the claim says the non-integral 5.5 is rejected with
a failure naming `track_position`; in fact `int(5.5)` truncates to 5 and
the request validates. -/
theorem validate_accepts_half_position :
    validate_input inputTrackHalf = (true, "") ∧
    alookup inputTrackHalf "track_position" =
      some (PyVal.vFloat (Rat.divInt 11 2)) := by
  constructor
  · decide
  · rfl

/-- C7 amended: with all earlier checks passing, the validator accepts
`track_position` iff Python `int()` conversion succeeds and the converted
value lies in [1, 20]; non-integral floats are truncated toward zero (5.5
becomes 5), not rejected; a failed conversion or an out-of-range converted
value rejects the request with the reason naming `track_position`, and the
checks short-circuit in source order (a track failure is reported only when
every earlier check passed, and the incident check runs only when the track
check passed). -/
theorem track_position_truncation (data : Input)
    (h : earlierChecksPass data = true) :
    (∀ q : ℚ, pyToInt (PyVal.vFloat q) = some (ratTrunc q)) ∧
    (pyToInt (dget data "track_position") = none →
      validate_input data = (false, msgTrackInt)) ∧
    (∀ k, pyToInt (dget data "track_position") = some k → ¬(1 ≤ k ∧ k ≤ 20) →
      validate_input data = (false, msgTrackRange)) ∧
    ((validate_input data = (true, "") ∨
        validate_input data = (false, msgIncident)) ↔
      ∃ k, pyToInt (dget data "track_position") = some k ∧ 1 ≤ k ∧ k ≤ 20) := by
  simp only [earlierChecksPass, Bool.and_eq_true, Bool.or_eq_true] at h
  obtain ⟨⟨⟨hm, hu⟩, ht⟩, hp⟩ := h
  have hm0 : missingFields data = [] := by
    cases hx : missingFields data
    · rfl
    · rw [hx] at hm
      simp at hm
  obtain ⟨t, hft, htr⟩ : ∃ t, pyToFloat (dget data "tire_wear_percentage") = some t ∧
      (0 ≤ t ∧ t ≤ 100) := by
    cases hx : pyToFloat (dget data "tire_wear_percentage") with
    | none => rw [hx] at ht; exact absurd ht (by simp)
    | some t =>
      rw [hx] at ht
      exact ⟨t, rfl, of_decide_eq_true ht⟩
  obtain ⟨p, hfp, hpr⟩ : ∃ p, pyToFloat (dget data "performance_drop_seconds") = some p ∧
      0 ≤ p := by
    cases hx : pyToFloat (dget data "performance_drop_seconds") with
    | none => rw [hx] at hp; exact absurd hp (by simp)
    | some p =>
      rw [hx] at hp
      exact ⟨p, rfl, of_decide_eq_true hp⟩
  have hstage : validate_input data =
      (match pyToInt (dget data "track_position") with
       | none => (false, msgTrackInt)
       | some k =>
         if ¬(1 ≤ k ∧ k ≤ 20) then (false, msgTrackRange)
         else if ¬(validIncidents.any
             (fun s => pyEqStr (dget data "race_incident") s)) then
           (false, msgIncident)
         else (true, "")) := by
    unfold validate_input
    rw [if_neg (not_ne_iff.mpr hm0), if_neg (not_not_intro hu), hft]
    dsimp only
    rw [if_neg (not_not_intro htr), hfp]
    dsimp only
    rw [if_neg (not_lt.mpr hpr)]
  refine ⟨fun q => rfl, ?_, ?_, ?_⟩
  · intro hn
    rw [hstage, hn]
  · intro k hk hnot
    rw [hstage, hk]
    dsimp only
    rw [if_pos hnot]
  · constructor
    · intro hor
      cases hti : pyToInt (dget data "track_position") with
      | none =>
        rw [hstage, hti] at hor
        dsimp only at hor
        rcases hor with hor | hor <;> exact absurd hor (by decide)
      | some k =>
        refine ⟨k, rfl, ?_⟩
        by_contra hnot
        rw [hstage, hti] at hor
        dsimp only at hor
        rw [if_pos hnot] at hor
        rcases hor with hor | hor <;> exact absurd hor (by decide)
    · rintro ⟨k, hk, hkr⟩
      rw [hstage, hk]
      dsimp only
      rw [if_neg (not_not_intro hkr)]
      by_cases hinc : validIncidents.any (fun s => pyEqStr (dget data "race_incident") s)
      · left
        rw [if_neg (not_not_intro hinc)]
      · right
        rw [if_pos hinc]

/-- Witness for the amended C7 at the 5.5 payload: the earlier checks pass
and the request is accepted because int() truncates 5.5 to 5 ∈ [1, 20]. -/
theorem track_position_truncation_witness :
    earlierChecksPass inputTrackHalf = true ∧
    (validate_input inputTrackHalf = (true, "") ∨
      validate_input inputTrackHalf = (false, msgIncident)) :=
  ⟨by decide,
    (track_position_truncation inputTrackHalf (by decide)).2.2.2.mpr
      ⟨5, by decide, by decide, by decide⟩⟩

/-! ### C1: the `/predict` pipeline on validated requests -/

/-- Inverting a successful validation: every check passed. -/
theorem validate_input_true_elim (data : Input)
    (h : validate_input data = (true, "")) :
    missingFields data = [] ∧
    (pyEqNum (dget data "undercut_overcut_opportunity") 0 = true ∨
      pyEqNum (dget data "undercut_overcut_opportunity") 1 = true) ∧
    (∃ t, pyToFloat (dget data "tire_wear_percentage") = some t) ∧
    (∃ p, pyToFloat (dget data "performance_drop_seconds") = some p) ∧
    (∃ k, pyToInt (dget data "track_position") = some k) ∧
    (validIncidents.any fun s => pyEqStr (dget data "race_incident") s) = true := by
  unfold validate_input at h
  by_cases hm : missingFields data ≠ []
  · rw [if_pos hm] at h
    exact absurd h (by simp)
  · rw [if_neg hm] at h
    refine ⟨not_ne_iff.mp hm, ?_⟩
    by_cases hu : ¬(pyEqNum (dget data "undercut_overcut_opportunity") 0 = true ∨
        pyEqNum (dget data "undercut_overcut_opportunity") 1 = true)
    · rw [if_pos hu] at h
      exact absurd h (by simp)
    · rw [if_neg hu] at h
      refine ⟨not_not.mp hu, ?_⟩
      cases hft : pyToFloat (dget data "tire_wear_percentage") with
      | none =>
        rw [hft] at h
        exact absurd h (by simp)
      | some t =>
        rw [hft] at h
        dsimp only at h
        refine ⟨⟨t, rfl⟩, ?_⟩
        by_cases htr : ¬(0 ≤ t ∧ t ≤ 100)
        · rw [if_pos htr] at h
          exact absurd h (by simp)
        · rw [if_neg htr] at h
          cases hfp : pyToFloat (dget data "performance_drop_seconds") with
          | none =>
            rw [hfp] at h
            exact absurd h (by simp)
          | some p =>
            rw [hfp] at h
            dsimp only at h
            refine ⟨⟨p, rfl⟩, ?_⟩
            by_cases hpr : p < 0
            · rw [if_pos hpr] at h
              exact absurd h (by simp)
            · rw [if_neg hpr] at h
              cases hfk : pyToInt (dget data "track_position") with
              | none =>
                rw [hfk] at h
                exact absurd h (by simp)
              | some k =>
                rw [hfk] at h
                dsimp only at h
                refine ⟨⟨k, rfl⟩, ?_⟩
                by_cases hkr : ¬(1 ≤ k ∧ k ≤ 20)
                · rw [if_pos hkr] at h
                  exact absurd h (by simp)
                · rw [if_neg hkr] at h
                  by_cases hic : ¬(validIncidents.any
                      fun s => pyEqStr (dget data "race_incident") s) = true
                  · rw [if_pos hic] at h
                    exact absurd h (by simp)
                  · exact not_not.mp hic

/-- A value comparing equal to a Python int converts with `int()`. -/
theorem pyToInt_of_pyEqNum (v : PyVal) (n : ℤ) (h : pyEqNum v n = true) :
    ∃ m, pyToInt v = some m := by
  cases v with
  | vInt m => exact ⟨m, rfl⟩
  | vFloat q => exact ⟨ratTrunc q, rfl⟩
  | vBool b => exact ⟨cond b 1 0, rfl⟩
  | vStr s => exact absurd h (by simp [pyEqNum])
  | vNone => exact absurd h (by simp [pyEqNum])
  | vList l => exact absurd h (by simp [pyEqNum])

/-- A value comparing equal to a Python string is that string. -/
theorem eq_vStr_of_pyEqStr (v : PyVal) (s : String) (h : pyEqStr v s = true) :
    v = PyVal.vStr s := by
  cases v with
  | vStr t =>
    simp only [pyEqStr, beq_iff_eq] at h
    exact congrArg PyVal.vStr h
  | vInt m => exact absurd h (by simp [pyEqStr])
  | vFloat q => exact absurd h (by simp [pyEqStr])
  | vBool b => exact absurd h (by simp [pyEqStr])
  | vNone => exact absurd h (by simp [pyEqStr])
  | vList l => exact absurd h (by simp [pyEqStr])

/-- C1 (code bug): the claim — validated requests always preprocess and
classify successfully — fails on `api.py`.  The inference row built there
has only five columns, while the fitted `ColumnTransformer` requires its
`laps_since_pit` column; `transform` therefore raises on every validated
request and the blanket handler turns it into a 500 server error: no
validated request can ever succeed. -/
theorem validated_predict_always_server_error (P : FittedPreprocessor)
    (M : List ℚ → String) (data : Input)
    (hv : validate_input data = (true, "")) :
    apiPredict P M data = ApiResult.serverError := by
  obtain ⟨hm, hu, ⟨t, ht⟩, ⟨p, hp⟩, ⟨k, hk⟩, hinc⟩ := validate_input_true_elim data hv
  have hne : data.isEmpty = false := by
    cases data with
    | nil => exact absurd hm (by decide)
    | cons a l => rfl
  obtain ⟨u, hui⟩ : ∃ m, pyToInt (dget data "undercut_overcut_opportunity") = some m := by
    rcases hu with hu | hu
    · exact pyToInt_of_pyEqNum _ _ hu
    · exact pyToInt_of_pyEqNum _ _ hu
  obtain ⟨sI, hsmem, hseq⟩ := List.any_eq_true.mp hinc
  have hvs : dget data "race_incident" = PyVal.vStr sI := eq_vStr_of_pyEqStr _ _ hseq
  have halt : alookup data "tire_wear_percentage" =
      some (dget data "tire_wear_percentage") :=
    alookup_eq_of_required data hm _ (by decide)
  have halp : alookup data "performance_drop_seconds" =
      some (dget data "performance_drop_seconds") :=
    alookup_eq_of_required data hm _ (by decide)
  have hrow : apiRow data = some
      [("undercut_overcut_opportunity", Cell.num (u : ℚ)),
       ("tire_wear_percentage", Cell.num t),
       ("performance_drop_seconds", Cell.num p),
       ("track_position", Cell.num (k : ℚ)),
       ("race_incident", Cell.str sI)] := by
    unfold apiRow
    rw [hui, ht, hp, hk, hvs]
  unfold apiPredict
  rw [if_neg (by simp [hne]), hv]
  dsimp only
  rw [halt, halp]
  dsimp only [Option.getD_some]
  rw [ht, hp]
  dsimp only
  rw [hrow]
  dsimp only
  rw [show transform P
      [("undercut_overcut_opportunity", Cell.num (u : ℚ)),
       ("tire_wear_percentage", Cell.num t),
       ("performance_drop_seconds", Cell.num p),
       ("track_position", Cell.num (k : ℚ)),
       ("race_incident", Cell.str sI)] = none from rfl]

/-- Witness for C1 at the Safety Car example payload and an arbitrary
fitted artifact. -/
theorem validated_predict_always_server_error_witness :
    validate_input inputSafetyCar = (true, "") ∧
    apiPredict (fitPreprocessor ["None", "Safety Car", "VSC", "Yellow Flag"]
        (fun _ => (0, 1))) (fun _ => "PIT NOW") inputSafetyCar =
      ApiResult.serverError :=
  ⟨by decide,
    validated_predict_always_server_error _ _ inputSafetyCar (by decide)⟩

/-! ### C8: unseen categories -/

/-- Taking the length of the left part of an append returns that part. -/
theorem take_of_append_length (l₁ l₂ : List ℚ) (n : ℕ) (h : l₁.length = n) :
    (l₁ ++ l₂).take n = l₁ := by
  subst h
  exact List.take_left _ _

/-- C8: for every fitted preprocessor and six-column feature row whose
`race_incident` value was not among the categories observed at fit time,
`transform` succeeds, the categorical block is all zeros, and the output
length is the same fixed `#categories + 5` as for any other incident
value. -/
theorem transform_unseen_category (incidents : List String)
    (stats : String → ℚ × ℚ) (u t p k laps : ℚ) (inc : String)
    (hunseen : inc ∉ incidents) :
    ∃ vec, transform (fitPreprocessor incidents stats)
        (mainRow u t p k laps inc) = some vec ∧
      vec.length = (fitPreprocessor incidents stats).categories.length + 5 ∧
      vec.take (fitPreprocessor incidents stats).categories.length =
        List.replicate (fitPreprocessor incidents stats).categories.length 0 ∧
      ∀ inc2, ∃ vec2, transform (fitPreprocessor incidents stats)
          (mainRow u t p k laps inc2) = some vec2 ∧
        vec2.length = (fitPreprocessor incidents stats).categories.length + 5 := by
  have hev : ∀ inc3, transform (fitPreprocessor incidents stats)
      (mainRow u t p k laps inc3) = some
        (oneHot (fitPreprocessor incidents stats).categories (Cell.str inc3) ++
          [scaleVal (stats "tire_wear_percentage") t,
           scaleVal (stats "performance_drop_seconds") p,
           scaleVal (stats "track_position") k,
           scaleVal (stats "laps_since_pit") laps] ++ [u]) :=
    fun inc3 => rfl
  have hlen : ∀ inc3, (oneHot (fitPreprocessor incidents stats).categories
      (Cell.str inc3)).length =
      (fitPreprocessor incidents stats).categories.length := by
    intro inc3
    unfold oneHot
    exact List.length_map _ _
  refine ⟨_, hev inc, ?_, ?_, fun inc2 => ⟨_, hev inc2, ?_⟩⟩
  · simp [hlen inc]
  · have hzero : oneHot (fitPreprocessor incidents stats).categories
        (Cell.str inc) = List.replicate
        (fitPreprocessor incidents stats).categories.length 0 := by
      refine List.eq_replicate_iff.mpr ⟨hlen inc, ?_⟩
      intro b hb
      obtain ⟨cat, hcat, hbe⟩ := List.mem_map.mp hb
      have hne : inc ≠ cat := by
        intro hcontra
        apply hunseen
        subst hcontra
        exact List.mem_dedup.mp (List.mem_mergeSort.mp hcat)
      rw [← hbe, if_neg]
      intro hcell
      injection hcell with h
      exact hne h
    rw [List.append_assoc]
    exact (take_of_append_length _ _ _ (hlen inc)).trans hzero
  · simp [hlen inc2]

/-- Witness for C8: the category "Red Flag" was never observed at fit
time. -/
theorem transform_unseen_category_witness :
    ("Red Flag" : String) ∉ ["None", "Yellow Flag", "Safety Car", "VSC"] ∧
    ∃ vec, transform (fitPreprocessor ["None", "Yellow Flag", "Safety Car", "VSC"]
        (fun _ => (0, 1))) (mainRow 0 50 1 8 12 "Red Flag") = some vec ∧
      vec.length = (fitPreprocessor ["None", "Yellow Flag", "Safety Car", "VSC"]
        (fun _ => (0, 1))).categories.length + 5 ∧
      vec.take (fitPreprocessor ["None", "Yellow Flag", "Safety Car", "VSC"]
          (fun _ => (0, 1))).categories.length =
        List.replicate (fitPreprocessor ["None", "Yellow Flag", "Safety Car", "VSC"]
          (fun _ => (0, 1))).categories.length 0 ∧
      ∀ inc2, ∃ vec2, transform (fitPreprocessor ["None", "Yellow Flag", "Safety Car", "VSC"]
          (fun _ => (0, 1))) (mainRow 0 50 1 8 12 inc2) = some vec2 ∧
        vec2.length = (fitPreprocessor ["None", "Yellow Flag", "Safety Car", "VSC"]
          (fun _ => (0, 1))).categories.length + 5 :=
  ⟨by decide,
    transform_unseen_category ["None", "Yellow Flag", "Safety Car", "VSC"]
      (fun _ => (0, 1)) 0 50 1 8 12 "Red Flag" (by decide)⟩

end F1Pit
